import Mathlib

/-!
Verification of the map_logs log-aggregation service against its
natural-language specification.

The development shallowly embeds the C++ sources:
* `src/log_entry.hpp` — record model, verbosity enumeration, JSON codec;
* `src/log_store.cpp` (bundled in `src/console_ui.cpp`) — the SQLite-backed
  store: insert, query, search, stats, sessions, categories, clear;
* `src/mcp_server.cpp` (bundled in `src/source_manager.cpp`) — the JSON-RPC
  dispatcher and its tool/resource handlers;
* `src/http_server.cpp` and the legacy variant — the SSE transport.

Modelling conventions, used throughout:
* C++ `double` time values are modelled as `Rat` (every finite double is a
  rational; the code only compares times, never does arithmetic on them).
* SQLite rows are modelled as a list of entries in insertion (id) order.
* `ORDER BY timestamp DESC` guarantees only that emit times are
  non-increasing; SQLite leaves the relative order of equal-timestamp rows
  unspecified, so the model sorts by that non-strict order alone and no
  theorem relies on how the sort arranges ties.
* `SELECT session_id FROM logs ORDER BY received_at DESC LIMIT 1` is modelled
  as the row maximal in `(received_at, id)` lexicographic order; the id
  tie-break is a deterministic model choice for the same unspecified-tie
  reason, and every theorem about it assumes a unique maximum, so the
  choice is never load-bearing.
* C++ exceptions are modelled with `Except String`.
-/

namespace McpLogs

/-- Verbosity enumeration from `log_entry.hpp` (matches UE ELogVerbosity),
stored in the database as its integer value. -/
inductive Verbosity where
  | NoLogging
  | Fatal
  | Error
  | Warning
  | Display
  | Log
  | Verbose
  | VeryVerbose
  deriving DecidableEq, Repr

/-- Integer value of a verbosity, as declared in the C++ enum
(`NoLogging = 0` … `VeryVerbose = 7`); this is what
`static_cast<int>(verbosity)` stores into the `verbosity` column. -/
def Verbosity.toInt : Verbosity → Int
  | .NoLogging => 0
  | .Fatal => 1
  | .Error => 2
  | .Warning => 3
  | .Display => 4
  | .Log => 5
  | .Verbose => 6
  | .VeryVerbose => 7

/-- The function `verbosity_to_string` from `log_entry.hpp`. -/
def verbosity_to_string : Verbosity → String
  | .NoLogging => "NoLogging"
  | .Fatal => "Fatal"
  | .Error => "Error"
  | .Warning => "Warning"
  | .Display => "Display"
  | .Log => "Log"
  | .Verbose => "Verbose"
  | .VeryVerbose => "VeryVerbose"

/-- The function `string_to_verbosity` from `log_entry.hpp`: case-sensitive
match against the seven named levels, anything else (including "NoLogging")
falls back to `Log`. -/
def string_to_verbosity (s : String) : Verbosity :=
  if s = "Fatal" then .Fatal
  else if s = "Error" then .Error
  else if s = "Warning" then .Warning
  else if s = "Display" then .Display
  else if s = "Log" then .Log
  else if s = "Verbose" then .Verbose
  else if s = "VeryVerbose" then .VeryVerbose
  else .Log

/-- The record model `LogEntry` from `log_entry.hpp`. Times are doubles in
the source, modelled as `Rat`. -/
structure LogEntry where
  id : Int := 0
  source : String := ""
  category : String := ""
  verbosity : Verbosity := .Log
  message : String := ""
  timestamp : Rat := 0
  frame : Option Int := none
  file : Option String := none
  line : Option Int := none
  received_at : Rat := 0
  session_id : String := ""
  instance_id : String := ""
  deriving DecidableEq, Repr

/-- The filter model `LogFilter` from `log_entry.hpp`. The C++ field
`until` is renamed `until_` because `until` is a Lean keyword. -/
structure LogFilter where
  source : Option String := none
  min_verbosity : Option Verbosity := none
  category : Option String := none
  since : Option Rat := none
  until_ : Option Rat := none
  session_id : Option String := none
  instance_id : Option String := none
  all_sessions : Bool := false
  limit : Int := 100
  offset : Int := 0
  deriving DecidableEq, Repr

/-- Store state: the `logs` table as a list of rows in rowid order, plus the
AUTOINCREMENT counter (`sqlite3_last_insert_rowid` source). The FTS mirror
`logs_fts` is kept in exact sync with the table by the three triggers in
`init_schema`, so it is represented implicitly by the rows themselves. -/
structure LogStore where
  rows : List LogEntry := []
  next_id : Int := 1
  deriving DecidableEq, Repr

/-- Subscriber callback registered via `LogStore::subscribe`; a C++ callback
may throw, modelled by `Except String Unit`. The subscriber list itself is
threaded as an explicit argument to `insert` (registration order preserved). -/
def Subscriber : Type := LogEntry → Except String Unit

/-- One step of picking the later of two rows under the
`(received_at, id)` lexicographic order modelling
`ORDER BY received_at DESC LIMIT 1`. SQLite leaves a receive-time tie
unspecified; the greater-id choice here is the model's deterministic
representative, and the theorems that use it assume a unique maximum, so
the choice is never relied on. -/
def pickLater (a b : LogEntry) : LogEntry :=
  if a.received_at < b.received_at ∨ (a.received_at = b.received_at ∧ a.id < b.id) then b else a

/-- The row selected by `SELECT ... FROM logs ORDER BY received_at DESC
LIMIT 1`, or `none` when the table is empty. -/
def latestRow : List LogEntry → Option LogEntry
  | [] => none
  | e :: es => some (es.foldl pickLater e)

/-- Session id of the latest row of the whole table, used by the implicit
latest-session predicate of `query` and `search`. -/
def latestSessionId (s : LogStore) : Option String :=
  (latestRow s.rows).map (·.session_id)

/-- The session predicate added by `LogStore::query`/`search`: an explicit
`filter.session_id` compares directly; otherwise, unless `all_sessions` is
set, the row must belong to the latest session (`session_id = (SELECT
session_id FROM logs ORDER BY received_at DESC LIMIT 1)`; when the table is
empty the subquery is NULL and the comparison admits no row). -/
def sessionPred (f : LogFilter) (latest : Option String) (e : LogEntry) : Bool :=
  match f.session_id with
  | some sid => e.session_id == sid
  | none =>
    if f.all_sessions then true
    else
      match latest with
      | some sid => e.session_id == sid
      | none => false

/-- The WHERE clause built by `LogStore::query` (minus the session part):
one conjunct per present optional filter field, mirroring lines 803–832 of
the source. -/
def restPredQuery (f : LogFilter) (e : LogEntry) : Bool :=
  f.instance_id.all (fun v => e.instance_id == v) &&
  f.source.all (fun v => e.source == v) &&
  f.min_verbosity.all (fun v => decide (e.verbosity.toInt ≤ v.toInt)) &&
  f.category.all (fun v => e.category == v) &&
  f.since.all (fun t => decide (t ≤ e.timestamp)) &&
  f.until_.all (fun t => decide (e.timestamp ≤ t))

/-- The WHERE clause built by `LogStore::search` besides the FTS MATCH and
the session part: the same conjuncts as `query` except that `search` has no
category condition (lines 881–899 of the source). -/
def restPredSearch (f : LogFilter) (e : LogEntry) : Bool :=
  f.instance_id.all (fun v => e.instance_id == v) &&
  f.source.all (fun v => e.source == v) &&
  f.min_verbosity.all (fun v => decide (e.verbosity.toInt ≤ v.toInt)) &&
  f.since.all (fun t => decide (t ≤ e.timestamp)) &&
  f.until_.all (fun t => decide (e.timestamp ≤ t))

/-- FTS5 `MATCH` against the `message` column, modelled for plain term
queries: every whitespace-separated token of the query must occur as a
whitespace-separated token of the message, case-insensitively (implicit
AND). The `OR`/`NOT`/phrase/prefix operator forms of the FTS dialect are
outside this model; no claim depends on them. -/
def ftsMatch (q msg : String) : Bool :=
  ((q.toLower.splitOn " ").filter (fun t => !(t == ""))).all
    (fun t => ((msg.toLower.splitOn " ").filter (fun t2 => !(t2 == ""))).contains t)

/-- Row order of `ORDER BY timestamp DESC`: `emitOrd a b` says a comes no
later than b, i.e. emit times are non-increasing along the result. The SQL
carries no secondary sort key, so the order of equal-timestamp rows is
unspecified; the sort below is one deterministic representative and no
theorem depends on how it arranges ties. -/
def emitOrd (a b : LogEntry) : Prop :=
  b.timestamp ≤ a.timestamp

instance : DecidableRel emitOrd := fun a b => by
  unfold emitOrd; infer_instance

/-- SQL `LIMIT limit OFFSET offset` applied to an ordered row list: skip
`offset` rows then keep `limit`; SQLite treats a negative LIMIT as
unlimited and a negative OFFSET as zero. -/
def applyLimit (limit offset : Int) (l : List LogEntry) : List LogEntry :=
  let d := l.drop offset.toNat
  if limit < 0 then d else d.take limit.toNat

/-- Shared shape of `query` and `search`: filter the table by the WHERE
predicate, order by `ORDER BY timestamp DESC`, apply LIMIT/OFFSET. -/
def runSelect (p : LogEntry → Bool) (limit offset : Int) (rows : List LogEntry) : List LogEntry :=
  applyLimit limit offset (List.insertionSort emitOrd (rows.filter p))

/-- The method `LogStore::query` (console_ui.cpp lines 783–859). -/
def LogStore.query (s : LogStore) (f : LogFilter) : List LogEntry :=
  runSelect (fun e => sessionPred f (latestSessionId s) e && restPredQuery f e)
    f.limit f.offset s.rows

/-- The method `LogStore::search` (console_ui.cpp lines 861–938): the FTS
join restricts rows to those whose message matches, then the same session
predicate and filters as `query` (minus category) apply. -/
def LogStore.search (s : LogStore) (q : String) (f : LogFilter) : List LogEntry :=
  runSelect (fun e => ftsMatch q e.message && (sessionPred f (latestSessionId s) e && restPredSearch f e))
    f.limit f.offset s.rows

/-- The populated copy of the entry that `LogStore::insert` persists and
hands to subscribers: the assigned rowid, and `received_at` taken from the
incoming record unless it is `0.0`, in which case the current clock value
(`now`, passed explicitly since the model has no clock) is stamped. -/
def insertedEntry (s : LogStore) (now : Rat) (e : LogEntry) : LogEntry :=
  { e with
    id := s.next_id
    received_at := if e.received_at = 0 then now else e.received_at }

/-- The subscriber notification loop of `LogStore::insert`: callbacks run in
registration order with no surrounding try/catch, so the first error stops
the loop and propagates. -/
def notifyAll (subs : List Subscriber) (e : LogEntry) : Except String Unit :=
  match subs with
  | [] => .ok ()
  | c :: cs =>
    match c e with
    | .ok _ => notifyAll cs e
    | .error msg => .error msg

/-- The method `LogStore::insert` (console_ui.cpp lines 688–756): persist the
populated row, then notify every subscriber, then return the assigned id.
The row is persisted before notification, so a subscriber error leaves the
row stored while the exception propagates to the caller. -/
def LogStore.insert (s : LogStore) (subs : List Subscriber) (now : Rat) (e : LogEntry) :
    LogStore × Except String Int :=
  let row := insertedEntry s now e
  ({ rows := s.rows ++ [row], next_id := s.next_id + 1 },
   (notifyAll subs row).map (fun _ => row.id))

/-- The method `LogStore::clear` (console_ui.cpp lines 1105–1125): DELETE
with one conjunct per present argument — `source = ?` and strict
`timestamp < ?` — returning `sqlite3_changes`, the number of deleted rows. -/
def LogStore.clear (s : LogStore) (source : Option String) (before : Option Rat) :
    LogStore × Int :=
  let del : LogEntry → Bool := fun e =>
    source.all (fun v => e.source == v) && before.all (fun t => decide (e.timestamp < t))
  (⟨s.rows.filter (fun e => !(del e)), s.next_id⟩, ((s.rows.filter del).length : Int))

/-- The method `LogStore::count`. -/
def LogStore.count (s : LogStore) : Int := s.rows.length

/-- Deduplication keeping the first occurrence; used to model SQL
`DISTINCT` and `GROUP BY` key collection (SQL leaves the group output order
unspecified; first-occurrence order is this model's deterministic choice). -/
def dedupFirst (l : List String) : List String :=
  l.foldl (fun acc x => if acc.contains x then acc else acc ++ [x]) []

/-- Generic insertion by a boolean order, used where SQL sorts rows this
model does not reason about. -/
def orderedInsertBy {α : Type} (le : α → α → Bool) (a : α) : List α → List α
  | [] => [a]
  | b :: l => if le a b then a :: b :: l else b :: orderedInsertBy le a l

/-- Generic insertion sort by a boolean order. -/
def insertionSortBy {α : Type} (le : α → α → Bool) : List α → List α
  | [] => []
  | a :: l => orderedInsertBy le a (insertionSortBy le l)

/-- Byte-wise character order, mirroring `std::string` comparison for the
ASCII keys this model sorts. -/
def charLt (a b : Char) : Bool := Nat.blt a.toNat b.toNat

/-- Lexicographic order on character lists. -/
def strLtAux : List Char → List Char → Bool
  | [], [] => false
  | [], _ :: _ => true
  | _ :: _, [] => false
  | a :: as, b :: bs => charLt a b || (a == b && strLtAux as bs)

/-- Lexicographic string order (`operator<` of `std::string`). -/
def strLt (a b : String) : Bool := strLtAux a.data b.data

/-- Minimum of a list of rationals (SQL `MIN` over a non-empty group; the
empty default is never reached because groups are non-empty). -/
def ratMin : List Rat → Rat
  | [] => 0
  | x :: xs => xs.foldl min x

/-- Maximum of a list of rationals (SQL `MAX` over a non-empty group). -/
def ratMax : List Rat → Rat
  | [] => 0
  | x :: xs => xs.foldl max x

/-- The method `LogStore::get_categories`: distinct categories of the
(optionally source-filtered) rows, `ORDER BY category` ascending. -/
def LogStore.get_categories (s : LogStore) (source : Option String) : List String :=
  let base := match source with
    | none => s.rows
    | some v => s.rows.filter (fun e => e.source == v)
  insertionSortBy (fun a b => !(strLt b a)) (dedupFirst (base.map (·.category)))

/-- Session summary `SessionInfo` from `log_entry.hpp`. -/
structure SessionInfo where
  session_id : String
  first_seen : Rat
  last_seen : Rat
  log_count : Int
  instances : List String
  deriving DecidableEq, Repr

/-- The method `LogStore::get_sessions` (console_ui.cpp lines 1147–1208):
group the (optionally source-filtered) rows by session, aggregate
first/last receive times and counts, order by `last_seen DESC`, and attach
the distinct instance ids of each session (under the same source filter). -/
def LogStore.get_sessions (s : LogStore) (source : Option String) : List SessionInfo :=
  let base := match source with
    | none => s.rows
    | some v => s.rows.filter (fun e => e.source == v)
  let infos := (dedupFirst (base.map (·.session_id))).map (fun sid =>
    let grp := base.filter (fun e => e.session_id == sid)
    { session_id := sid
      first_seen := ratMin (grp.map (·.received_at))
      last_seen := ratMax (grp.map (·.received_at))
      log_count := (grp.length : Int)
      instances := dedupFirst (grp.map (·.instance_id)) })
  insertionSortBy (fun a b => decide (b.last_seen ≤ a.last_seen)) infos

/-- The method `LogStore::get_latest_session`: session id of the row with
the greatest receive time among the (optionally source-filtered) rows, or
the empty string when there is none. -/
def LogStore.get_latest_session (s : LogStore) (source : Option String) : String :=
  let base := match source with
    | none => s.rows
    | some v => s.rows.filter (fun e => e.source == v)
  match latestRow base with
  | some r => r.session_id
  | none => ""

/-- Statistics value `LogStats` from `log_entry.hpp`; `by_category` is a
`std::map`, modelled as a key-sorted association list. -/
structure LogStats where
  total_count : Int
  client_count : Int
  server_count : Int
  error_count : Int
  warning_count : Int
  by_category : List (String × Int)
  session_count : Int
  instance_count : Int
  current_session : String
  deriving DecidableEq, Repr

/-- The method `LogStore::get_stats` (console_ui.cpp lines 940–1080): every
count is restricted by the optional `source` and `since` WHERE clause, but
the `current_session` query (lines 1066–1077) reads the whole table with no
WHERE clause. The top-20 category selection breaks count ties in
first-occurrence order (unspecified in SQL). -/
def LogStore.get_stats (s : LogStore) (source : Option String) (since : Option Rat) :
    LogStats :=
  let wp : LogEntry → Bool := fun e =>
    source.all (fun v => e.source == v) && since.all (fun t => decide (t ≤ e.timestamp))
  let rows2 := s.rows.filter wp
  let cats := dedupFirst (rows2.map (·.category))
  let pairs := cats.map (fun c => (c, (rows2.countP (fun e => e.category == c) : Int)))
  { total_count := (rows2.length : Int)
    client_count := (rows2.countP (fun e => e.source == "client") : Int)
    server_count := (rows2.countP (fun e => e.source == "server") : Int)
    error_count := (rows2.countP (fun e => decide (e.verbosity.toInt ≤ 2)) : Int)
    warning_count := (rows2.countP (fun e => e.verbosity.toInt == 3) : Int)
    by_category :=
      insertionSortBy (fun a b => !(strLt b.1 a.1))
        ((insertionSortBy (fun a b => decide (b.2 ≤ a.2)) pairs).take 20)
    session_count := ((dedupFirst (rows2.map (·.session_id))).length : Int)
    instance_count := ((dedupFirst (rows2.map (·.instance_id))).length : Int)
    current_session :=
      match latestRow s.rows with
      | some r => r.session_id
      | none => "" }

/-! JSON model: the fragment of `nlohmann::json` the sources use. Objects
are `std::map`s sorted by key, modelled as key-sorted association lists
built through `setField`/`jsonObj`. The source distinguishes integer and
double number values, mirrored by the `int` and `num` constructors. -/

/-- JSON value model for the `nlohmann::json` values the sources build. -/
inductive Json where
  | null
  | bool (b : Bool)
  | int (n : Int)
  | num (q : Rat)
  | str (s : String)
  | arr (xs : List Json)
  | obj (kvs : List (String × Json))

/-- Insert a key/value pair into a key-sorted association list, replacing an
existing binding (semantics of `std::map::operator[]` assignment). -/
def insertField (k : String) (v : Json) : List (String × Json) → List (String × Json)
  | [] => [(k, v)]
  | (k2, v2) :: rest =>
    if k == k2 then (k, v) :: rest
    else if strLt k k2 then (k, v) :: (k2, v2) :: rest
    else (k2, v2) :: insertField k v rest

/-- Assignment `j[k] = v` of `nlohmann::json`: a null value silently becomes
an object first; on an object the sorted map is updated. -/
def Json.setField (j : Json) (k : String) (v : Json) : Json :=
  match j with
  | .obj kvs => .obj (insertField k v kvs)
  | _ => .obj [(k, v)]

/-- Object construction from a field list (initializer lists and sequences
of `j[k] = v` assignments both populate the sorted map). -/
def jsonObj (l : List (String × Json)) : Json :=
  l.foldl (fun j kv => j.setField kv.1 kv.2) (Json.obj [])

/-- Field lookup in an association list. -/
def lookupField (k : String) : List (String × Json) → Option Json
  | [] => none
  | (k2, v) :: rest => if k == k2 then some v else lookupField k rest

/-- Field access `j.contains(k)` / `j[k]` of an object; `none` when the key
is missing or the value is not an object. -/
def Json.getField? (j : Json) (k : String) : Option Json :=
  match j with
  | .obj kvs => lookupField k kvs
  | _ => none

/-- The total form of `j.value(k, default)` used with a JSON-typed default:
the field when present, the default otherwise. -/
def jValueOr (j : Json) (k : String) (d : Json) : Json :=
  (j.getField? k).getD d

/-- Hexadecimal digit for control-character escapes. -/
def hexDigit (n : Nat) : Char :=
  if n < 10 then Char.ofNat (48 + n) else Char.ofNat (87 + n)

/-- JSON escape of one character, as the serializer writes it. -/
def escapeChar (c : Char) : String :=
  if c = Char.ofNat 34 then "\\\""
  else if c = Char.ofNat 92 then "\\\\"
  else if c = Char.ofNat 10 then "\\n"
  else if c = Char.ofNat 9 then "\\t"
  else if c = Char.ofNat 13 then "\\r"
  else if c = Char.ofNat 8 then "\\b"
  else if c = Char.ofNat 12 then "\\f"
  else if c.toNat < 32 then
    "\\u00" ++ String.singleton (hexDigit (c.toNat / 16)) ++ String.singleton (hexDigit (c.toNat % 16))
  else String.singleton c

/-- JSON string-body escaping used by the serializer. -/
def jsonEscape (s : String) : String :=
  String.join (s.data.map escapeChar)

mutual

/-- Compact serialization `j.dump()` of `nlohmann::json`. Doubles are
printed via `toString` of the rational (an approximation of the shortest
round-trip double format; no claim inspects a serialized double). -/
def Json.dump : Json → String
  | .null => "null"
  | .bool true => "true"
  | .bool false => "false"
  | .int n => toString n
  | .num q => toString q
  | .str s => "\"" ++ jsonEscape s ++ "\""
  | .arr xs => "[" ++ Json.dumpArr xs ++ "]"
  | .obj kvs => "\x7b" ++ Json.dumpObj kvs ++ "\x7d"

/-- Comma-joined compact serialization of array elements. -/
def Json.dumpArr : List Json → String
  | [] => ""
  | [x] => Json.dump x
  | x :: y :: xs => Json.dump x ++ "," ++ Json.dumpArr (y :: xs)

/-- Comma-joined compact serialization of object fields. -/
def Json.dumpObj : List (String × Json) → String
  | [] => ""
  | [(k, v)] => "\"" ++ jsonEscape k ++ "\":" ++ Json.dump v
  | (k, v) :: y :: xs => "\"" ++ jsonEscape k ++ "\":" ++ Json.dump v ++ "," ++ Json.dumpObj (y :: xs)

end

/-- Indentation prefix of the pretty serializer. -/
def spaces (n : Nat) : String :=
  String.mk (List.replicate n (Char.ofNat 32))

mutual

/-- Pretty serialization `j.dump(w)` at current indent `cur` (the tool and
resource handlers use `dump(2)`): containers break across lines, primitive
values print as in the compact form. -/
def Json.dumpIndent (w cur : Nat) : Json → String
  | .arr [] => "[]"
  | .arr (x :: xs) =>
    "[\n" ++ Json.dumpIndentArr w (cur + w) (x :: xs) ++ "\n" ++ spaces cur ++ "]"
  | .obj [] => "\x7b\x7d"
  | .obj (kv :: kvs) =>
    "\x7b\n" ++ Json.dumpIndentObj w (cur + w) (kv :: kvs) ++ "\n" ++ spaces cur ++ "\x7d"
  | j => Json.dump j

/-- Pretty-printed array elements, one per line. -/
def Json.dumpIndentArr (w cur : Nat) : List Json → String
  | [] => ""
  | [x] => spaces cur ++ Json.dumpIndent w cur x
  | x :: y :: xs =>
    spaces cur ++ Json.dumpIndent w cur x ++ ",\n" ++ Json.dumpIndentArr w cur (y :: xs)

/-- Pretty-printed object fields, one per line. -/
def Json.dumpIndentObj (w cur : Nat) : List (String × Json) → String
  | [] => ""
  | [(k, v)] => spaces cur ++ "\"" ++ jsonEscape k ++ "\": " ++ Json.dumpIndent w cur v
  | (k, v) :: y :: xs =>
    spaces cur ++ "\"" ++ jsonEscape k ++ "\": " ++ Json.dumpIndent w cur v ++ ",\n" ++
      Json.dumpIndentObj w cur (y :: xs)

end

/-- The serializer `LogEntry::to_json` from `log_entry.hpp`: the nine always
written fields, then `frame`, `file`, `line` when present, all assigned into
the sorted object map. -/
def LogEntry.to_json (e : LogEntry) : Json :=
  jsonObj
    ([("id", Json.int e.id),
      ("source", Json.str e.source),
      ("category", Json.str e.category),
      ("verbosity", Json.str (verbosity_to_string e.verbosity)),
      ("message", Json.str e.message),
      ("timestamp", Json.num e.timestamp),
      ("received_at", Json.num e.received_at),
      ("session_id", Json.str e.session_id),
      ("instance_id", Json.str e.instance_id)] ++
     (match e.frame with | some n => [("frame", Json.int n)] | none => []) ++
     (match e.file with | some v => [("file", Json.str v)] | none => []) ++
     (match e.line with | some n => [("line", Json.int n)] | none => []))

/-- Typed read `get<string>`; a type mismatch throws in the source, `none`
here. -/
def jAsStr? : Json → Option String
  | .str s => some s
  | _ => none

/-- Typed read `get<int64_t>`/`get<int>` from an integer JSON number. -/
def jAsInt? : Json → Option Int
  | .int n => some n
  | _ => none

/-- Typed read `get<double>`: accepts both double and integer JSON numbers,
as the source library does. -/
def jAsNum? : Json → Option Rat
  | .num q => some q
  | .int n => some (n : Rat)
  | _ => none

/-- String-typed `j.value(k, default)`. -/
def jValueStr? (j : Json) (k : String) (d : String) : Option String :=
  match j.getField? k with
  | none => some d
  | some v => jAsStr? v

/-- Double-typed `j.value(k, default)`. -/
def jValueNum? (j : Json) (k : String) (d : Rat) : Option Rat :=
  match j.getField? k with
  | none => some d
  | some v => jAsNum? v

/-- The parser `LogEntry::from_json` from `log_entry.hpp` (lines 79–94):
defaults `"unknown"`/`"LogTemp"`/`"Log"`/`""`/`0.0` for missing fields,
optional `frame`, `file`, `line` only when present; a typed read that would
throw in C++ yields `none`. -/
def LogEntry.from_json (j : Json) : Option LogEntry := do
  let id ← match j.getField? "id" with
    | none => some 0
    | some v => jAsInt? v
  let source ← jValueStr? j "source" "unknown"
  let category ← jValueStr? j "category" "LogTemp"
  let vstr ← jValueStr? j "verbosity" "Log"
  let message ← jValueStr? j "message" ""
  let timestamp ← jValueNum? j "timestamp" 0
  let received_at ← jValueNum? j "received_at" 0
  let session_id ← jValueStr? j "session_id" ""
  let instance_id ← jValueStr? j "instance_id" ""
  let frame ← match j.getField? "frame" with
    | none => some none
    | some v => (jAsInt? v).map some
  let file ← match j.getField? "file" with
    | none => some none
    | some v => (jAsStr? v).map some
  let line ← match j.getField? "line" with
    | none => some none
    | some v => (jAsInt? v).map some
  some
    { id := id, source := source, category := category,
      verbosity := string_to_verbosity vstr, message := message,
      timestamp := timestamp, frame := frame, file := file, line := line,
      received_at := received_at, session_id := session_id, instance_id := instance_id }

/-- The serializer `LogStats::to_json` from `log_entry.hpp`. -/
def LogStats.to_json (st : LogStats) : Json :=
  jsonObj
    [("total", Json.int st.total_count),
     ("client", Json.int st.client_count),
     ("server", Json.int st.server_count),
     ("errors", Json.int st.error_count),
     ("warnings", Json.int st.warning_count),
     ("by_category", jsonObj (st.by_category.map (fun p => (p.1, Json.int p.2)))),
     ("session_count", Json.int st.session_count),
     ("instance_count", Json.int st.instance_count),
     ("current_session", Json.str st.current_session)]

/-- The serializer `SessionInfo::to_json` from `log_entry.hpp`. -/
def SessionInfo.to_json (si : SessionInfo) : Json :=
  jsonObj
    [("session_id", Json.str si.session_id),
     ("first_seen", Json.num si.first_seen),
     ("last_seen", Json.num si.last_seen),
     ("log_count", Json.int si.log_count),
     ("instances", Json.arr (si.instances.map Json.str))]

/-! The RPC dispatcher `McpServer` (second implementation bundled in
`src/source_manager.cpp`, lines 582–1216). Store-mutating tools thread the
store value; C++ exceptions are `Except String`. The free-text tool and
resource descriptions and input schemas of `handle_tools_list`,
`handle_resources_list` and `handle_initialize` are elided to the fields the
dispatch logic and the claims depend on (names, uris, wire keys); no claim
inspects the description texts. -/

/-- Optional-string tool argument: `if (args.contains(k)) ... get<string>`. -/
def parseOptStr (args : Json) (k : String) : Except String (Option String) :=
  match args.getField? k with
  | none => .ok none
  | some v =>
    match jAsStr? v with
    | some s => .ok (some s)
    | none => .error "type must be string"

/-- Optional-double tool argument: `if (args.contains(k)) ... get<double>`. -/
def parseOptNum (args : Json) (k : String) : Except String (Option Rat) :=
  match args.getField? k with
  | none => .ok none
  | some v =>
    match jAsNum? v with
    | some q => .ok (some q)
    | none => .error "type must be number"

/-- Optional-integer tool argument: `if (args.contains(k)) ... get<int>`. -/
def parseOptInt (args : Json) (k : String) : Except String (Option Int) :=
  match args.getField? k with
  | none => .ok none
  | some v =>
    match jAsInt? v with
    | some n => .ok (some n)
    | none => .error "type must be number"

/-- Optional-boolean tool argument: `if (args.contains(k)) ... get<bool>`. -/
def parseOptBool (args : Json) (k : String) : Except String (Option Bool) :=
  match args.getField? k with
  | none => .ok none
  | some (.bool b) => .ok (some b)
  | some _ => .error "type must be boolean"

/-- String-typed `j.value(k, d)` of the dispatcher, throwing on a wrongly
typed present field. -/
def jValueStrE (j : Json) (k : String) (d : String) : Except String String :=
  match j.getField? k with
  | none => .ok d
  | some v =>
    match jAsStr? v with
    | some s => .ok s
    | none => .error "type must be string"

/-- The tool `query_logs` (`McpServer::tool_query_logs`). -/
def tool_query_logs (s : LogStore) (args : Json) : Except String Json := do
  let source ← parseOptStr args "source"
  let category ← parseOptStr args "category"
  let since ← parseOptNum args "since"
  let until2 ← parseOptNum args "until"
  let limit ← parseOptInt args "limit"
  let verbosity ← parseOptStr args "verbosity"
  let session_id ← parseOptStr args "session_id"
  let instance_id ← parseOptStr args "instance_id"
  let all_sessions ← parseOptBool args "all_sessions"
  let filter : LogFilter :=
    { source := source, category := category, since := since, until_ := until2,
      limit := (limit.getD 100), min_verbosity := verbosity.map string_to_verbosity,
      session_id := session_id, instance_id := instance_id,
      all_sessions := all_sessions.getD false }
  let logs := s.query filter
  .ok (jsonObj [("count", Json.int (logs.length : Int)),
                ("logs", Json.arr (logs.map LogEntry.to_json))])

/-- The tool `search_logs` (`McpServer::tool_search_logs`): a missing or
empty `query` argument throws; the filter has no category/since/until
arguments. -/
def tool_search_logs (s : LogStore) (args : Json) : Except String Json := do
  let q ← jValueStrE args "query" ""
  if q = "" then
    .error "Query parameter is required"
  else do
    let source ← parseOptStr args "source"
    let limit ← parseOptInt args "limit"
    let verbosity ← parseOptStr args "verbosity"
    let session_id ← parseOptStr args "session_id"
    let instance_id ← parseOptStr args "instance_id"
    let all_sessions ← parseOptBool args "all_sessions"
    let filter : LogFilter :=
      { source := source, limit := (limit.getD 100),
        min_verbosity := verbosity.map string_to_verbosity,
        session_id := session_id, instance_id := instance_id,
        all_sessions := all_sessions.getD false }
    let logs := s.search q filter
    .ok (jsonObj [("count", Json.int (logs.length : Int)),
                  ("query", Json.str q),
                  ("logs", Json.arr (logs.map LogEntry.to_json))])

/-- The tool `get_stats` (`McpServer::tool_get_stats`). -/
def tool_get_stats (s : LogStore) (args : Json) : Except String Json := do
  let source ← parseOptStr args "source"
  let since ← parseOptNum args "since"
  .ok (s.get_stats source since).to_json

/-- The tool `get_categories` (`McpServer::tool_get_categories`). -/
def tool_get_categories (s : LogStore) (args : Json) : Except String Json := do
  let source ← parseOptStr args "source"
  .ok (jsonObj [("categories", Json.arr ((s.get_categories source).map Json.str))])

/-- The tool `clear_logs` (`McpServer::tool_clear_logs`); the only tool that
mutates the store. -/
def tool_clear_logs (s : LogStore) (args : Json) : Except String (LogStore × Json) := do
  let source ← parseOptStr args "source"
  let before ← parseOptNum args "before"
  let (s2, deleted) := s.clear source before
  .ok (s2, jsonObj [("deleted", Json.int deleted),
                    ("message", Json.str (toString deleted ++ " log entries deleted"))])

/-- The tool `tail_logs` (`McpServer::tool_tail_logs`): `count`
(default 50) becomes the filter limit. -/
def tool_tail_logs (s : LogStore) (args : Json) : Except String Json := do
  let count ← parseOptInt args "count"
  let source ← parseOptStr args "source"
  let session_id ← parseOptStr args "session_id"
  let instance_id ← parseOptStr args "instance_id"
  let all_sessions ← parseOptBool args "all_sessions"
  let filter : LogFilter :=
    { limit := count.getD 50, source := source,
      session_id := session_id, instance_id := instance_id,
      all_sessions := all_sessions.getD false }
  let logs := s.query filter
  .ok (jsonObj [("count", Json.int (logs.length : Int)),
                ("logs", Json.arr (logs.map LogEntry.to_json))])

/-- The tool `get_sessions` (`McpServer::tool_get_sessions`): optional
source filter and limit (default 20) applied after retrieval. -/
def tool_get_sessions (s : LogStore) (args : Json) : Except String Json := do
  let source ← parseOptStr args "source"
  let limit ← parseOptInt args "limit"
  let sessions := (s.get_sessions source).take (limit.getD 20).toNat
  .ok (jsonObj [("count", Json.int (sessions.length : Int)),
                ("sessions", Json.arr (sessions.map SessionInfo.to_json))])

/-- The resource `logs://recent` (`McpServer::resource_recent_logs`):
default filter with limit 100. -/
def resource_recent_logs (s : LogStore) : Json :=
  Json.arr ((s.query { limit := 100 }).map LogEntry.to_json)

/-- The resource `logs://stats` (`McpServer::resource_stats`). -/
def resource_stats (s : LogStore) : Json :=
  (s.get_stats none none).to_json

/-- The resource `logs://errors` (`McpServer::resource_errors`): minimum
verbosity `Error`, limit 100, default session scoping. -/
def resource_errors (s : LogStore) : Json :=
  Json.arr ((s.query { min_verbosity := some .Error, limit := 100 }).map LogEntry.to_json)

/-- The resource `logs://current-session`
(`McpServer::resource_current_session`). -/
def resource_current_session (s : LogStore) : Json :=
  let logs := s.query { limit := 100 }
  jsonObj [("session_id", Json.str (s.get_latest_session none)),
           ("count", Json.int (logs.length : Int)),
           ("logs", Json.arr (logs.map LogEntry.to_json))]

/-- The JSON-RPC success envelope (`McpServer::success_response`). -/
def success_response (id result : Json) : Json :=
  jsonObj [("jsonrpc", Json.str "2.0"), ("id", id), ("result", result)]

/-- The JSON-RPC error envelope (`McpServer::error_response`). -/
def error_response (id : Json) (code : Int) (message : String) : Json :=
  jsonObj [("jsonrpc", Json.str "2.0"), ("id", id),
           ("error", jsonObj [("code", Json.int code), ("message", Json.str message)])]

/-- The method `initialize` (`McpServer::handle_initialize`); the long
free-text `description` entry of `serverInfo` is elided. -/
def handle_initialize (_params : Json) : Json :=
  jsonObj [("protocolVersion", Json.str "2024-11-05"),
           ("capabilities", jsonObj [("tools", Json.obj []),
                                     ("resources", jsonObj [("subscribe", Json.bool false)])]),
           ("serverInfo", jsonObj [("name", Json.str "ue-log-server"),
                                   ("version", Json.str "1.0.0")])]

/-- The seven catalog entries pushed by `McpServer::handle_tools_list`
(source_manager.cpp lines 693–881), in push order; each entry is reduced to
its `name` field (descriptions and input schemas elided). -/
def handle_tools_list : Json :=
  jsonObj [("tools", Json.arr
    ([ "query_logs", "search_logs", "get_stats", "get_categories",
       "clear_logs", "tail_logs", "get_sessions" ].map
      (fun n => jsonObj [("name", Json.str n)])))]

/-- The catalog of `McpServer::handle_resources_list`, reduced to uri, name
and MIME type (descriptions elided). -/
def handle_resources_list : Json :=
  jsonObj [("resources", Json.arr
    ([("logs://recent", "Recent Logs"),
      ("logs://stats", "Log Statistics"),
      ("logs://errors", "Error Logs"),
      ("logs://current-session", "Current Session Logs")].map
      (fun p => jsonObj [("uri", Json.str p.1), ("name", Json.str p.2),
                         ("mimeType", Json.str "application/json")])))]

/-- Outcome of one tool dispatch arm for a read-only tool; an error becomes
the `"Error: ..."` text with `isError` set (the catch inside
`handle_tools_call`). -/
def toolOutcome (s : LogStore) : Except String Json → LogStore × Json × Bool
  | .ok r => (s, r, false)
  | .error msg => (s, Json.str ("Error: " ++ msg), true)

/-- Outcome of the store-mutating tool dispatch arm. -/
def toolOutcomeS (s : LogStore) : Except String (LogStore × Json) → LogStore × Json × Bool
  | .ok (s2, r) => (s2, r, false)
  | .error msg => (s, Json.str ("Error: " ++ msg), true)

/-- The method `tools/call` (`McpServer::handle_tools_call`,
source_manager.cpp lines 884–932): dispatch on the tool name over exactly
the seven implemented tools; an unknown name produces the
`"Unknown tool: ..."` text with `isError` set; the result is wrapped as
`content`/`isError`. Name/argument extraction happens before the internal
try block, so its errors propagate to `handle_request`. -/
def handle_tools_call (s : LogStore) (params : Json) : Except String (LogStore × Json) := do
  let name ← jValueStrE params "name" ""
  let args := jValueOr params "arguments" (Json.obj [])
  let (s2, result, is_error) :=
    if name = "query_logs" then toolOutcome s (tool_query_logs s args)
    else if name = "search_logs" then toolOutcome s (tool_search_logs s args)
    else if name = "get_stats" then toolOutcome s (tool_get_stats s args)
    else if name = "get_categories" then toolOutcome s (tool_get_categories s args)
    else if name = "clear_logs" then toolOutcomeS s (tool_clear_logs s args)
    else if name = "tail_logs" then toolOutcome s (tool_tail_logs s args)
    else if name = "get_sessions" then toolOutcome s (tool_get_sessions s args)
    else (s, Json.str ("Unknown tool: " ++ name), true)
  .ok (s2, jsonObj
    [("content", Json.arr [jsonObj [("type", Json.str "text"),
                                    ("text", Json.str (Json.dumpIndent 2 0 result))]]),
     ("isError", Json.bool is_error)])

/-- The method `resources/read` (`McpServer::handle_resources_read`): an
unknown uri throws, which `handle_request` turns into a `-32603` envelope. -/
def handle_resources_read (s : LogStore) (params : Json) : Except String Json := do
  let uri ← jValueStrE params "uri" ""
  let result ←
    if uri = "logs://recent" then .ok (resource_recent_logs s)
    else if uri = "logs://stats" then .ok (resource_stats s)
    else if uri = "logs://errors" then .ok (resource_errors s)
    else if uri = "logs://current-session" then .ok (resource_current_session s)
    else .error ("Unknown resource: " ++ uri)
  .ok (jsonObj [("contents", Json.arr
    [jsonObj [("uri", Json.str uri),
              ("mimeType", Json.str "application/json"),
              ("text", Json.str (Json.dumpIndent 2 0 result))]])])

/-- Body of the try block of `McpServer::handle_request` (source_manager.cpp
lines 613–650): method lookup and routing. The `notifications/initialized`
arm returns the empty `nlohmann::json()` value, i.e. JSON null. -/
def handleRequestCore (s : LogStore) (request : Json) : Except String (LogStore × Json) := do
  let method ← jValueStrE request "method" ""
  let id := jValueOr request "id" Json.null
  let params := jValueOr request "params" (Json.obj [])
  if method = "initialize" then
    .ok (s, success_response id ( handle_initialize params))
  else if method = "notifications/initialized" then
    .ok (s, Json.null)
  else if method = "tools/list" then
    .ok (s, success_response id handle_tools_list)
  else if method = "tools/call" then do
    let (s2, r) ← handle_tools_call s params
    .ok (s2, success_response id r)
  else if method = "resources/list" then
    .ok (s, success_response id handle_resources_list)
  else if method = "resources/read" then do
    let r ← handle_resources_read s params
    .ok (s, success_response id r)
  else if method = "ping" then
    .ok (s, success_response id (Json.obj []))
  else
    .ok (s, error_response id (-32601) ("Method not found: " ++ method))

/-- The dispatcher entry `McpServer::handle_request`: any exception from the
body becomes a `-32603` error envelope. -/
def handle_request (s : LogStore) (request : Json) : LogStore × Json :=
  match handleRequestCore s request with
  | .ok r => r
  | .error msg => (s, error_response (jValueOr request "id" Json.null) (-32603) msg)

/-! The SSE transport (`src/http_server.cpp`, modern profile, and the legacy
variant). The composition root wires `handle_request` as the message
handler, so the handler is modelled as always present. -/

/-- A registered event-stream client (`HttpServer::SseClient`): its session
id and whether its sink is writable. -/
structure SseClient where
  session_id : String
  writable : Bool
  deriving DecidableEq, Repr

/-- Result of one `POST /messages` request: the HTTP status, the framed
event-stream writes performed (receiver session id paired with the raw
frame text), and the store after dispatch. -/
structure PostOutcome where
  status : Nat
  frames : List (String × String)
  store : LogStore
  deriving Repr

/-- The `POST /messages` handler (http_server.cpp lines 140–179): missing
session id or unparseable body give 400; otherwise the body goes to the
dispatcher and the response is framed as an event named `message` and
written to every registered writable client of the session — with no check
that the dispatcher response is non-empty. The HTTP status is then 202. -/
def post_messages (s : LogStore) (clients : List SseClient) (session_id : String)
    (body : Option Json) : PostOutcome :=
  if session_id = "" then ⟨400, [], s⟩
  else
    match body with
    | none => ⟨400, [], s⟩
    | some req =>
      let (s2, response) := handle_request s req
      ⟨202,
       clients.filterMap (fun c =>
         if c.session_id == session_id && c.writable then
           some (c.session_id, "event: message\ndata: " ++ response.dump ++ "\n\n")
         else none),
       s2⟩

/-- The first frame written by the modern-profile stream handler
(`GET /`, http_server.cpp lines 96–105): an `endpoint` event whose data is
the raw URL fragment, not JSON. -/
def modernEndpointFrame (session_id : String) : String :=
  "event: endpoint\ndata: /messages?session_id=" ++ session_id ++ "\n\n"

/-- The writes of one modern-profile stream connection that stayed open
long enough for `pings` keep-alive intervals (one comment frame per 15 s of
the loop at lines 107–121): the endpoint frame first, then only pings. -/
def modernStreamWrites (session_id : String) (pings : Nat) : List String :=
  modernEndpointFrame session_id :: List.replicate pings ": ping\n\n"

/-- The data payload of the legacy-profile (`GET /sse`) endpoint event: the
handler builds `endpoint_event["endpoint"] = url` and writes its dump, so
the payload is a JSON object wrapping the URL. -/
def legacyEndpointData (session_id : String) : String :=
  (jsonObj [("endpoint", Json.str ("/messages?session_id=" ++ session_id))]).dump

/-- The writes of one legacy-profile stream connection: the single endpoint
frame (the legacy keep-alive loop writes nothing). -/
def legacyStreamWrites (session_id : String) : List String :=
  ["event: endpoint\ndata: " ++ legacyEndpointData session_id ++ "\n\n"]

end McpLogs

namespace McpLogs

/-! Concrete sample values used by the witnesses below. -/

/-- Sample record of an older session. -/
def entryOld : LogEntry :=
  { id := 1
    source := "client"
    category := "LogTemp"
    verbosity := .Log
    message := "old ping"
    timestamp := 10
    received_at := 100
    session_id := "old"
    instance_id := "i1" }

/-- Sample record of a newer session. -/
def entryNew : LogEntry :=
  { id := 2
    source := "client"
    category := "LogTemp"
    verbosity := .Warning
    message := "new ping"
    timestamp := 20
    received_at := 200
    session_id := "new"
    instance_id := "i2" }

/-- Sample record of the newest session, with the greatest receive time in
the sample store. -/
def entryTie : LogEntry :=
  { id := 3
    source := "server"
    category := "LogNet"
    verbosity := .Error
    message := "tie ping"
    timestamp := 20
    received_at := 300
    session_id := "new"
    instance_id := "i3" }

/-- Sample store holding the three records above. -/
def sampleStore : LogStore := ⟨[entryOld, entryNew, entryTie], 4⟩

/-- Subscriber callback that always raises, as a C++ subscriber whose body
throws would. -/
def failingSubscriber : Subscriber := fun _ => .error "subscriber failure"

/-- A `tools/call` request envelope with the given tool name and arguments. -/
def toolsCallRequest (name : String) (args : Json) : Json :=
  jsonObj [("jsonrpc", Json.str "2.0"), ("id", Json.int 1),
           ("method", Json.str "tools/call"),
           ("params", jsonObj [("name", Json.str name), ("arguments", args)])]

/-- Names listed in a `tools/list` catalog value. -/
def listedToolNames (catalog : Json) : List String :=
  match catalog.getField? "tools" with
  | some (.arr xs) => xs.filterMap (fun x =>
      match x.getField? "name" with
      | some (.str n) => some n
      | _ => none)
  | _ => []

/-- The `notifications/initialized` notification request (no id field). -/
def notificationRequest : Json :=
  jsonObj [("jsonrpc", Json.str "2.0"), ("method", Json.str "notifications/initialized")]

/-- One registered writable event-stream client. -/
def sampleClient : SseClient := ⟨"s1", true⟩

/-! Helper lemmas about the store model. -/

theorem foldl_pickLater_eq (w : LogEntry) :
    ∀ (rows : List LogEntry) (init : LogEntry),
      (init = w ∨ init.received_at < w.received_at) →
      (∀ e ∈ rows, e = w ∨ e.received_at < w.received_at) →
      (init = w ∨ w ∈ rows) →
      rows.foldl pickLater init = w := by
  intro rows
  induction rows with
  | nil =>
    intro init h1 _ h3
    rcases h3 with h | h
    · simpa using h
    · simp at h
  | cons e es ih =>
    intro init h1 h2 h3
    have he : e = w ∨ e.received_at < w.received_at := h2 e (by simp)
    have hstep :
        (pickLater init e = w ∨ (pickLater init e).received_at < w.received_at) ∧
        (pickLater init e = w ∨ w ∈ es) := by
      rcases he with he | he
      · subst he
        have hp : pickLater init e = e := by
          unfold pickLater
          split
          · rfl
          · rename_i hc
            rcases h1 with h1 | h1
            · exact h1
            · exact absurd (Or.inl h1) hc
        exact ⟨Or.inl hp, Or.inl hp⟩
      · rcases h3 with h3 | h3
        · subst h3
          have hp : pickLater init e = init := by
            unfold pickLater
            apply if_neg
            rintro (hc | ⟨hc, _⟩)
            · exact absurd (hc.trans he) (lt_irrefl _)
            · rw [hc] at he; exact absurd he (lt_irrefl _)
          exact ⟨Or.inl hp, Or.inl hp⟩
        · have hmem : w ∈ es := by
            rcases List.mem_cons.mp h3 with h4 | h4
            · subst h4; exact absurd he (lt_irrefl _)
            · exact h4
          have hacc : pickLater init e = w ∨ (pickLater init e).received_at < w.received_at := by
            unfold pickLater
            split
            · exact Or.inr he
            · exact h1
          exact ⟨hacc, Or.inr hmem⟩
    simpa using ih (pickLater init e) hstep.1 (fun x hx => h2 x (by simp [hx])) hstep.2

theorem latestRow_eq_max (rows : List LogEntry) (w : LogEntry)
    (hw : w ∈ rows) (hmax : ∀ e ∈ rows, e ≠ w → e.received_at < w.received_at) :
    latestRow rows = some w := by
  have hall : ∀ e ∈ rows, e = w ∨ e.received_at < w.received_at := by
    intro e he
    by_cases h : e = w
    · exact Or.inl h
    · exact Or.inr (hmax e he h)
  match rows, hw with
  | e :: es, hw =>
    simp only [latestRow, Option.some.injEq]
    apply foldl_pickLater_eq w es e
    · exact hall e (by simp)
    · intro x hx; exact hall x (by simp [hx])
    · rcases List.mem_cons.mp hw with h | h
      · exact Or.inl h.symm
      · exact Or.inr h

theorem applyLimit_sublist (limit offset : Int) (l : List LogEntry) :
    (applyLimit limit offset l).Sublist l := by
  unfold applyLimit
  split
  · exact List.drop_sublist _ _
  · exact (List.take_sublist _ _).trans (List.drop_sublist _ _)

theorem mem_runSelect {e : LogEntry} {p : LogEntry → Bool} {limit offset : Int}
    {rows : List LogEntry} (h : e ∈ runSelect p limit offset rows) :
    e ∈ rows ∧ p e = true := by
  unfold runSelect at h
  have h2 := (applyLimit_sublist _ _ _).mem h
  have h3 := (List.perm_insertionSort emitOrd (rows.filter p)).mem_iff.mp h2
  exact List.mem_filter.mp h3

theorem runSelect_nil (p : LogEntry → Bool) (limit offset : Int) :
    runSelect p limit offset [] = [] := by
  unfold runSelect applyLimit
  simp

theorem sessionPred_latest {f : LogFilter} {latest : Option String} {e : LogEntry}
    (hsid : f.session_id = none) (hall : f.all_sessions = false) (sid : String)
    (hl : latest = some sid) (h : sessionPred f latest e = true) :
    e.session_id = sid := by
  unfold sessionPred at h
  rw [hsid, hall, hl] at h
  simpa using h

theorem length_filter_add_length_filter_not {α : Type} (p : α → Bool) (l : List α) :
    (l.filter p).length + (l.filter (fun a => !(p a))).length = l.length := by
  induction l with
  | nil => rfl
  | cons x xs ih =>
    cases h : p x <;> simp [List.filter_cons, h] <;> omega

theorem filter_length_sub {α : Type} (p : α → Bool) (l : List α) :
    ((l.filter p).length : Int) =
      (l.length : Int) - ((l.filter (fun a => !(p a))).length : Int) := by
  have := length_filter_add_length_filter_not p l
  omega

/-! Claim C1. -/

/-- Claim C1: for every filter whose session id is unset and whose
all-sessions flag is false, `query` and `search` return only records whose
session id equals the session id of the single record with the greatest
receive time, and on an empty store both return the empty list. -/
theorem query_search_latest_session_default :
    (∀ (s : LogStore) (f : LogFilter) (w : LogEntry) (q : String),
      w ∈ s.rows →
      (∀ e ∈ s.rows, e ≠ w → e.received_at < w.received_at) →
      f.session_id = none →
      f.all_sessions = false →
      (∀ e ∈ s.query f, e.session_id = w.session_id) ∧
      (∀ e ∈ s.search q f, e.session_id = w.session_id)) ∧
    (∀ (s : LogStore) (f : LogFilter) (q : String), s.rows = [] →
      s.query f = [] ∧ s.search q f = []) := by
  constructor
  · intro s f w q hw hmax hsid hall
    have hl : latestSessionId s = some w.session_id := by
      unfold latestSessionId
      rw [latestRow_eq_max s.rows w hw hmax]
      rfl
    constructor
    · intro e he
      obtain ⟨_, hp⟩ := mem_runSelect he
      have hs : sessionPred f (latestSessionId s) e = true :=
        ((Bool.and_eq_true _ _).mp hp).1
      exact sessionPred_latest hsid hall _ hl hs
    · intro e he
      obtain ⟨_, hp⟩ := mem_runSelect he
      have hs : sessionPred f (latestSessionId s) e = true :=
        ((Bool.and_eq_true _ _).mp ((Bool.and_eq_true _ _).mp hp).2).1
      exact sessionPred_latest hsid hall _ hl hs
  · intro s f q hrows
    constructor
    · unfold LogStore.query
      rw [hrows]
      exact runSelect_nil _ _ _
    · unfold LogStore.search
      rw [hrows]
      exact runSelect_nil _ _ _

/-- Witness for C1 at the sample store whose unique latest-received record
is `entryTie` of session "new". -/
theorem c1_witness :
    (entryTie ∈ sampleStore.rows) ∧
    ((∀ e ∈ sampleStore.query {}, e.session_id = entryTie.session_id) ∧
     (∀ e ∈ sampleStore.search "ping" {}, e.session_id = entryTie.session_id)) :=
  ⟨by decide,
   query_search_latest_session_default.1 sampleStore {} entryTie "ping"
     (by decide) (by decide) rfl rfl⟩

/-! Claim C2. -/

/-- Claim C2 evaluation: the dispatcher does not expose `add_file_source`,
`remove_source` or `list_sources`. A `tools/call` naming any of them falls
into the unknown-tool arm (`isError` true, diagnostic text), and the
`tools/list` catalog names only the seven implemented tools. -/
theorem source_tools_not_dispatched :
    ((handle_request {} (toolsCallRequest "add_file_source"
        (jsonObj [("path", Json.str "/tmp/app.log")]))).2 =
      success_response (Json.int 1) (jsonObj
        [("content", Json.arr [jsonObj [("type", Json.str "text"),
            ("text", Json.str "\"Unknown tool: add_file_source\"")]]),
         ("isError", Json.bool true)])) ∧
    ((handle_request {} (toolsCallRequest "remove_source"
        (jsonObj [("id", Json.str "file-1")]))).2 =
      success_response (Json.int 1) (jsonObj
        [("content", Json.arr [jsonObj [("type", Json.str "text"),
            ("text", Json.str "\"Unknown tool: remove_source\"")]]),
         ("isError", Json.bool true)])) ∧
    ((handle_request {} (toolsCallRequest "list_sources" (jsonObj []))).2 =
      success_response (Json.int 1) (jsonObj
        [("content", Json.arr [jsonObj [("type", Json.str "text"),
            ("text", Json.str "\"Unknown tool: list_sources\"")]]),
         ("isError", Json.bool true)])) ∧
    listedToolNames handle_tools_list =
      ["query_logs", "search_logs", "get_stats", "get_categories",
       "clear_logs", "tail_logs", "get_sessions"] :=
  ⟨rfl, rfl, rfl, rfl⟩

/-! Claim C3. -/

/-- Counterexample for C3 as stated: with a registered subscriber that
raises, `insert` does not return the assigned id; the error escapes. -/
theorem insert_subscriber_error_cex :
    (LogStore.insert {} [failingSubscriber] 1 {}).2 = .error "subscriber failure" ∧
    ∀ (n : Int), (LogStore.insert {} [failingSubscriber] 1 {}).2 ≠ .ok n := by
  refine ⟨rfl, ?_⟩
  intro n h
  exact Except.noConfusion h

/-- Claim C3 as amended: a subscriber error during the post-insert
notification is not caught anywhere in `insert` — it propagates to the
caller instead of the id — while the record itself has already been
persisted with its assigned id before the notification loop ran. -/
theorem insert_subscriber_error_propagates :
    ∀ (s : LogStore) (subs : List Subscriber) (now : Rat) (e : LogEntry) (msg : String),
      notifyAll subs (insertedEntry s now e) = .error msg →
      (s.insert subs now e).2 = .error msg ∧
      (s.insert subs now e).1.rows = s.rows ++ [insertedEntry s now e] := by
  intro s subs now e msg h
  constructor
  · show (notifyAll subs (insertedEntry s now e)).map (fun _ => (insertedEntry s now e).id) = _
    rw [h]
    rfl
  · rfl

/-- Witness for the amended C3 with the always-raising subscriber. -/
theorem c3_witness :
    (notifyAll [failingSubscriber] (insertedEntry {} 1 {}) = .error "subscriber failure") ∧
    ((LogStore.insert {} [failingSubscriber] 1 {}).2 = .error "subscriber failure" ∧
     (LogStore.insert {} [failingSubscriber] 1 {}).1.rows =
       ({} : LogStore).rows ++ [insertedEntry {} 1 {}]) :=
  ⟨rfl, insert_subscriber_error_propagates {} [failingSubscriber] 1 {} "subscriber failure" rfl⟩

/-! Claim C5. -/

/-- Counterexample for C5 as stated: inserting a record carrying
receive time 5 while the store clock reads 99 persists 5 — the incoming
record does determine the persisted receive time. -/
theorem insert_ignores_store_clock_cex :
    (((LogStore.insert {} [] 99 { received_at := 5 }).1.rows).getLast?).map
        (fun r => r.received_at) = some 5 ∧ (5 : Rat) ≠ 99 := by
  constructor
  · rfl
  · decide

/-- Claim C5 as amended: `insert` stamps the store clock as the persisted
receive time only when the incoming record carries receive time 0.0; any
other incoming receive time is persisted unchanged. -/
theorem insert_stamps_only_when_zero :
    (∀ (s : LogStore) (subs : List Subscriber) (now : Rat) (e : LogEntry),
      e.received_at = 0 →
      (((s.insert subs now e).1.rows).getLast?).map (fun r => r.received_at) = some now) ∧
    (∀ (s : LogStore) (subs : List Subscriber) (now : Rat) (e : LogEntry),
      e.received_at ≠ 0 →
      (((s.insert subs now e).1.rows).getLast?).map (fun r => r.received_at) =
        some e.received_at) := by
  constructor
  · intro s subs now e h
    unfold LogStore.insert
    simp [List.getLast?_concat, insertedEntry, h]
  · intro s subs now e h
    unfold LogStore.insert
    simp [List.getLast?_concat, insertedEntry, h]

/-- Witness for the amended C5: a zero receive time is stamped with the
clock, the nonzero receive time of `entryOld` is kept. -/
theorem c5_witness :
    ((((LogStore.insert {} [] 7 { message := "a" }).1.rows).getLast?).map
        (fun r => r.received_at) = some 7) ∧
    ((((LogStore.insert {} [] 7 entryOld).1.rows).getLast?).map
        (fun r => r.received_at) = some entryOld.received_at) :=
  ⟨insert_stamps_only_when_zero.1 {} [] 7 { message := "a" } rfl,
   insert_stamps_only_when_zero.2 {} [] 7 entryOld (by decide)⟩

/-! Claim C6. -/

/-- Counterexample for C6 as stated: for the `notifications/initialized`
notification the transport still emits a frame — an event named `message`
whose data is the serialized null response. -/
theorem notification_frame_sent_cex :
    (post_messages {} [sampleClient] "s1" (some notificationRequest)).frames =
      [("s1", "event: message\ndata: null\n\n")] ∧
    (post_messages {} [sampleClient] "s1" (some notificationRequest)).frames ≠ [] := by
  refine ⟨rfl, ?_⟩
  intro h
  exact List.noConfusion h

/-- Claim C6 as amended: the dispatcher does return an empty (null) value
for a notification, but the transport does not recognise it — it frames the
null value and sends an `event: message` frame with data `null` to every
registered writable client of the session, answering 202. -/
theorem notification_frame_sent_amend :
    ∀ (s : LogStore) (clients : List SseClient) (sid : String) (req : Json),
      sid ≠ "" →
      jValueStrE req "method" "" = .ok "notifications/initialized" →
      (handle_request s req).2 = Json.null ∧
      (post_messages s clients sid (some req)).frames =
        clients.filterMap (fun c =>
          if c.session_id == sid && c.writable then
            some (c.session_id, "event: message\ndata: null\n\n")
          else none) ∧
      (post_messages s clients sid (some req)).status = 202 := by
  intro s clients sid req hsid hm
  have hresp : handle_request s req = (s, Json.null) := by
    unfold handle_request handleRequestCore
    rw [hm]
    simp [Bind.bind, Except.bind]
  have hpost : post_messages s clients sid (some req) =
      ⟨202, clients.filterMap (fun c =>
        if c.session_id == sid && c.writable then
          some (c.session_id, "event: message\ndata: null\n\n")
        else none), s⟩ := by
    simp only [post_messages, hresp]
    rw [if_neg hsid]
    rfl
  refine ⟨by rw [hresp], by rw [hpost], by rw [hpost]⟩

/-- Witness for the amended C6 with one registered client. -/
theorem c6_witness :
    ((handle_request {} notificationRequest).2 = Json.null ∧
     (post_messages {} [sampleClient] "s1" (some notificationRequest)).frames =
       [sampleClient].filterMap (fun c =>
          if c.session_id == "s1" && c.writable then
            some (c.session_id, "event: message\ndata: null\n\n")
          else none) ∧
     (post_messages {} [sampleClient] "s1" (some notificationRequest)).status = 202) :=
  notification_frame_sent_amend {} [sampleClient] "s1" notificationRequest (by decide) rfl

/-! Claim C7. -/

/-- Counterexample for C7 as stated: the legacy profile JSON-wraps the
endpoint payload, so the payload differs from the raw URL fragment. -/
theorem endpoint_event_profiles_cex :
    legacyEndpointData "session_1_00000000" =
      "\x7b\"endpoint\":\"/messages?session_id=session_1_00000000\"\x7d" ∧
    legacyEndpointData "session_1_00000000" ≠
      "/messages?session_id=session_1_00000000" := by
  refine ⟨rfl, ?_⟩
  decide

/-- Claim C7 as amended: the modern profile sends exactly one `endpoint`
event before any other frame and its payload is the literal URL fragment,
followed only by keep-alive comment frames; the legacy profile also sends
its single `endpoint` event first, but its payload is the JSON object
wrapping the URL under the key `endpoint`. -/
theorem endpoint_event_profiles_amend :
    (∀ (sid : String) (pings : Nat),
      (modernStreamWrites sid pings).head? =
        some ("event: endpoint\ndata: /messages?session_id=" ++ sid ++ "\n\n") ∧
      ∀ w ∈ (modernStreamWrites sid pings).tail, w = ": ping\n\n") ∧
    (∀ (sid : String), legacyStreamWrites sid =
      ["event: endpoint\ndata: " ++ legacyEndpointData sid ++ "\n\n"]) ∧
    legacyEndpointData "session_1_00000000" =
      "\x7b\"endpoint\":\"/messages?session_id=session_1_00000000\"\x7d" := by
  refine ⟨?_, fun _ => rfl, rfl⟩
  intro sid pings
  refine ⟨rfl, ?_⟩
  intro w hw
  simpa using List.eq_of_mem_replicate (by simpa [modernStreamWrites] using hw)

/-- Witness for the amended C7: a keep-alive frame of a stream that stayed
open for two intervals is the comment frame. -/
theorem c7_witness :
    (": ping\n\n" ∈ (modernStreamWrites "session_1_00000000" 2).tail) ∧
    ": ping\n\n" = ": ping\n\n" :=
  ⟨by decide,
   (endpoint_event_profiles_amend.1 "session_1_00000000" 2).2 ": ping\n\n" (by decide)⟩

/-! Claim C8. -/

/-- Counterexample for C8 as stated: a record with verbosity `NoLogging`
does not round-trip — the decoder has no case for `"NoLogging"` and falls
back to `Log`. -/
theorem to_json_from_json_roundtrip_cex :
    LogEntry.from_json (LogEntry.to_json { verbosity := .NoLogging }) ≠
      some ({ verbosity := .NoLogging } : LogEntry) ∧
    (LogEntry.from_json (LogEntry.to_json ({ verbosity := .NoLogging } : LogEntry))).map
      (fun r => r.verbosity) = some Verbosity.Log := by
  refine ⟨?_, rfl⟩
  decide

set_option maxHeartbeats 1600000 in
/-- Claim C8 as amended: for every record whose verbosity is not
`NoLogging` (the one enumeration value the decoder cannot reproduce),
decoding the encoded record yields a record equal to the original in every
field, set or optional. -/
theorem to_json_from_json_roundtrip_amend :
    ∀ (e : LogEntry), e.verbosity ≠ .NoLogging →
      LogEntry.from_json (LogEntry.to_json e) = some e := by
  intro e hv
  obtain ⟨id, source, category, v, message, ts, fr, fl, ln, ra, sid, iid⟩ := e
  cases v
  case NoLogging => exact absurd rfl hv
  all_goals
    cases fr <;> cases fl <;> cases ln <;>
      simp +decide only [LogEntry.to_json, LogEntry.from_json, jsonObj, List.foldl,
        Json.setField, insertField, lookupField, Json.getField?, jValueStr?, jValueNum?,
        jAsStr?, jAsInt?, jAsNum?, strLt, strLtAux, charLt, string_to_verbosity,
        verbosity_to_string, if_true, if_false, List.cons_append, List.nil_append,
        Option.bind_eq_bind, Option.some_bind, Option.bind, Option.map]

/-- Witness for the amended C8 at the sample record `entryNew`. -/
theorem c8_witness :
    (entryNew.verbosity ≠ .NoLogging) ∧
    LogEntry.from_json (LogEntry.to_json entryNew) = some entryNew :=
  ⟨by decide, to_json_from_json_roundtrip_amend entryNew (by decide)⟩

/-! Claim C9. -/

/-- Claim C9: `clear` with an emit-time bound deletes exactly the
otherwise-matching records whose emit time is strictly below the bound; a
record whose emit time equals the bound is never deleted, and the returned
count is the number of deleted rows. -/
theorem clear_before_strict :
    ∀ (s : LogStore) (source : Option String) (t : Rat),
      (∀ e ∈ s.rows,
        (e ∈ (s.clear source (some t)).1.rows ↔
          ¬(source.all (fun v => e.source == v) = true ∧ e.timestamp < t))) ∧
      (∀ e ∈ s.rows, e.timestamp = t → e ∈ (s.clear source (some t)).1.rows) ∧
      (s.clear source (some t)).2 =
        (s.rows.length : Int) - ((s.clear source (some t)).1.rows.length : Int) := by
  intro s source t
  have hmem : ∀ e ∈ s.rows,
      (e ∈ (s.clear source (some t)).1.rows ↔
        ¬(source.all (fun v => e.source == v) = true ∧ e.timestamp < t)) := by
    intro e he
    unfold LogStore.clear
    simp only [List.mem_filter, Bool.not_eq_true', Bool.and_eq_true, Option.all_some,
      decide_eq_true_eq]
    constructor
    · intro h hq
      rcases h with ⟨_, h2⟩
      simp only [Bool.not_eq_true, Bool.and_eq_false_iff] at h2
      rcases h2 with h2 | h2
      · exact absurd hq.1 (by simpa using h2)
      · have : decide (e.timestamp < t) = false := by simpa using h2
        exact absurd hq.2 (by simpa using this)
    · intro h
      refine ⟨he, ?_⟩
      simp only [Bool.not_eq_true', Bool.and_eq_false_iff]
      by_cases h1 : source.all (fun v => e.source == v) = true
      · right
        by_cases h2 : e.timestamp < t
        · exact absurd ⟨h1, h2⟩ h
        · simpa using h2
      · left
        simpa using h1
  refine ⟨hmem, ?_, ?_⟩
  · intro e he ht
    rw [hmem e he]
    intro hq
    rw [ht] at hq
    exact absurd hq.2 (lt_irrefl t)
  · simp only [LogStore.clear]
    exact filter_length_sub _ s.rows

/-- Witness for C9: clearing before emit time 20 keeps `entryNew`, whose
emit time is exactly 20. -/
theorem c9_witness :
    (entryNew ∈ sampleStore.rows) ∧ entryNew.timestamp = 20 ∧
    entryNew ∈ (sampleStore.clear none (some 20)).1.rows :=
  ⟨by decide, rfl, (clear_before_strict sampleStore none 20).2.1 entryNew (by decide) rfl⟩

/-! Claim C10. -/

/-- Claim C10: the `current_session` field of the statistics value is
computed over the whole store — the optional source and since filters do
not affect it — and it equals the session id of the record with the
greatest receive time. -/
theorem stats_current_session_unfiltered :
    (∀ (source : Option String) (since : Option Rat) (s : LogStore),
      (s.get_stats source since).current_session = (s.get_stats none none).current_session) ∧
    (∀ (source : Option String) (since : Option Rat) (s : LogStore) (w : LogEntry),
      w ∈ s.rows → (∀ e ∈ s.rows, e ≠ w → e.received_at < w.received_at) →
      (s.get_stats source since).current_session = w.session_id) := by
  constructor
  · intro _ _ _
    rfl
  · intro source since s w hw hmax
    show (match latestRow s.rows with | some r => r.session_id | none => "") = w.session_id
    rw [latestRow_eq_max s.rows w hw hmax]

/-- Witness for C10: with source and since filters that exclude the latest
record, `current_session` is still its session. -/
theorem c10_witness :
    (entryTie ∈ sampleStore.rows) ∧
    (sampleStore.get_stats (some "client") (some 15)).current_session = entryTie.session_id :=
  ⟨by decide,
   stats_current_session_unfiltered.2 (some "client") (some 15) sampleStore entryTie
     (by decide) (by decide)⟩

end McpLogs
